import Mathlib

/-!
Verification development for the reference MCP server.

Shallow embedding of the parts of the source that carry the interesting
behavior:
- the mock tool executor (src/tools/trigger-enhanced-sampling.ts, executeMockTool),
- the enhanced-sampling agent loop (same file, registerTriggerEnhancedSamplingTool),
- the streamable HTTP session handlers (src/transports/streamableHttp.ts),
- the push-only SSE session handlers (src/transports/sse.ts),
- a resumable event store modelled from the spec (the InMemoryEventStore used by
  the streamable HTTP transport is imported from the SDK and is not part of the
  sources of this repository).

JavaScript primitives with no direct Lean counterpart (Math.random, Date,
Function-based expression evaluation, JSON.stringify of an arbitrary value)
are modelled as oracle fields of MockEnv; every theorem that touches them is
universally quantified over the oracle, so nothing is assumed about their
behavior beyond their type.
-/

namespace Mcp

/-- Tool input payload. The mock tools read the fields city, expression and
timezone; a missing field is the JavaScript value undefined, modelled as none. -/
structure ToolInput where
  city : Option String
  expression : Option String
  timezone : Option String
  deriving DecidableEq, Repr

/-- Coercion String(x) applied to a field that may be undefined:
String(undefined) is the text "undefined". -/
def jsString : Option String → String
  | some s => s
  | none => "undefined"

/-- Tool use content block of a sampling response: id, name and input
(src/tools/trigger-enhanced-sampling.ts, ToolUseContent). -/
structure ToolUseContent where
  id : String
  name : String
  input : ToolInput
  deriving DecidableEq, Repr

/-- One content block of a sampling message. The block kinds the agent loop
inspects are text, tool_use and tool_result; every other block kind of the SDK
(image, audio, ...) is collapsed into the constructor other, which the loop
only ever filters away. -/
inductive Content where
  | text (t : String)
  | toolUse (tu : ToolUseContent)
  | toolResult (toolUseId : String) (resultText : String)
  | other (tag : String)
  deriving DecidableEq, Repr

/-- Content of a SamplingMessage: the SDK allows a single block or an array of
blocks, and the loop distinguishes the two shapes with Array.isArray. -/
inductive MessageContent where
  | single (c : Content)
  | array (cs : List Content)
  deriving DecidableEq, Repr

/-- One message of the conversation history
(src/tools/trigger-enhanced-sampling.ts, SamplingMessage). -/
structure SamplingMessage where
  role : String
  content : MessageContent
  deriving DecidableEq, Repr

/-- Declared sample tool (name and description; the JSON input schema plays no
role in the loop logic). -/
structure Tool where
  name : String
  description : String
  deriving DecidableEq, Repr

/-- Fixed catalog of sample tools
(src/tools/trigger-enhanced-sampling.ts, sampleTools). -/
def sampleTools : List Tool :=
  [ { name := "get_weather", description := "Get current weather for a city" }
  , { name := "calculate", description := "Perform a mathematical calculation" }
  , { name := "get_time", description := "Get current time in a timezone" } ]

/-- Tool choice mode of the request schema: auto, required or none. -/
inductive ToolChoiceMode where
  | auto
  | required
  | none'
  deriving DecidableEq, Repr

/-- Tool choice directive carried by a sampling request. -/
structure ToolChoice where
  mode : ToolChoiceMode
  deriving DecidableEq, Repr

/-- Parameters of one sampling/createMessage request. A tools or toolChoice
field that the source sets to undefined is modelled as none. -/
structure CreateMessageParams where
  messages : List SamplingMessage
  systemPrompt : String
  maxTokens : Int
  tools : Option (List Tool)
  toolChoice : Option ToolChoice
  deriving DecidableEq, Repr

/-- Result of one sampling/createMessage request, as consumed by the loop:
the optional stopReason and the content. -/
structure CreateMessageResult where
  stopReason : Option String
  content : MessageContent
  deriving DecidableEq, Repr

/-- Oracles for the JavaScript primitives used by the mock tools:
getWeather models the Math.random driven JSON of the get_weather branch,
evalExpr models the Function based evaluation of a validated expression
(none models a thrown evaluation error, caught by the source), timeInZone
models Date.toLocaleString (none models a thrown invalid-timezone error),
and stringifyResult models JSON.stringify of a sampling result. -/
structure MockEnv where
  getWeather : Option String → String
  evalExpr : String → Option String
  timeInZone : String → Option String
  stringifyResult : CreateMessageResult → String

/-- Whitespace class of the JavaScript regular expression escape backslash-s. -/
def isJsWhitespace (c : Char) : Bool :=
  c == ' ' || c == '\t' || c == '\n' || c == '\r' || c == '\u000B' || c == '\u000C' ||
  c == '\u00A0' || c == '\u1680' || ('\u2000' ≤ c && c ≤ '\u200A') ||
  c == '\u2028' || c == '\u2029' || c == '\u202F' || c == '\u205F' ||
  c == '\u3000' || c == '\uFEFF'

/-- Character class of the validation regular expression of the calculate
branch: digits, the five operators, parentheses, decimal point and whitespace
(src/tools/trigger-enhanced-sampling.ts line 93). -/
def isExprChar (c : Char) : Bool :=
  c.isDigit || c == '+' || c == '-' || c == '*' || c == '/' ||
  c == '(' || c == ')' || c == '.' || c == '%' || isJsWhitespace c

/-- Validation test of the calculate branch: the anchored regular expression
with a one-or-more quantifier accepts exactly the nonempty strings all of
whose characters lie in the class. -/
def validExpr (s : String) : Bool :=
  !s.isEmpty && s.toList.all isExprChar

/-- Mock tool executor
(src/tools/trigger-enhanced-sampling.ts, executeMockTool, lines 77-114).
Dispatches on the tool name; the calculate branch validates its input before
the evaluation oracle is consulted; every branch returns a string, mirroring
the try/catch structure of the source that prevents any exception from
escaping. -/
def executeMockTool (env : MockEnv) (name : String) (input : ToolInput) : String :=
  if name = "get_weather" then
    env.getWeather input.city
  else if name = "calculate" then
    let expr := jsString input.expression
    if !validExpr expr then
      "Error: Invalid expression. Only basic math operations allowed."
    else
      match env.evalExpr expr with
      | some r => "Result: " ++ r
      | none => "Error: Could not evaluate expression"
  else if name = "get_time" then
    match env.timeInZone (jsString input.timezone) with
    | some t => t
    | none => "Error: Invalid timezone"
  else
    "Unknown tool: " ++ name

/-- Extraction of the tool_use blocks of a response content
(src/tools/trigger-enhanced-sampling.ts, extractToolCalls, lines 119-129). -/
def extractToolCalls : MessageContent → List ToolUseContent
  | MessageContent.array cs =>
      cs.filterMap fun c =>
        match c with
        | Content.toolUse tu => some tu
        | _ => none
  | MessageContent.single (Content.toolUse tu) => [tu]
  | MessageContent.single _ => []

/-- Extraction of the plain text of a terminal response: for an array content
the text blocks are joined with a newline, for a single text block its text is
taken, and anything else yields the empty string
(src/tools/trigger-enhanced-sampling.ts, lines 314-322). -/
def extractText : MessageContent → String
  | MessageContent.array cs =>
      String.intercalate "\n"
        (cs.filterMap fun c =>
          match c with
          | Content.text t => some t
          | _ => none)
  | MessageContent.single (Content.text t) => t
  | MessageContent.single _ => ""

/-- JavaScript short-circuit disjunction s or-else d on an optional string:
undefined and the empty string are falsy and select the default. -/
def jsOrDefault (s : Option String) (d : String) : String :=
  match s with
  | none => d
  | some t => if t.isEmpty then d else t

/-- Record of one executed tool call kept for the final report
(name, input, result). -/
structure ToolCallRecord where
  name : String
  input : ToolInput
  result : String
  deriving DecidableEq, Repr

/-- Per-iteration bookkeeping entry of the loop
(src/tools/trigger-enhanced-sampling.ts, iterationResults, lines 219-224). -/
structure IterationResult where
  iteration : Int
  stopReason : Option String
  toolCalls : Option (List ToolCallRecord)
  textResponse : Option String
  deriving DecidableEq, Repr

/-- Tool call records produced by executing every extracted call through the
mock executor (src/tools/trigger-enhanced-sampling.ts, lines 284-299). -/
def toolCallRecords (env : MockEnv) (calls : List ToolUseContent) : List ToolCallRecord :=
  calls.map fun c => { name := c.name, input := c.input, result := executeMockTool env c.name c.input }

/-- Tool result content blocks, one per extracted call, tagged with the id of
the call (src/tools/trigger-enhanced-sampling.ts, toolResultContent,
lines 278-299). -/
def toolResultsContent (env : MockEnv) (calls : List ToolUseContent) : List Content :=
  calls.map fun c => Content.toolResult c.id (executeMockTool env c.name c.input)

/-- Request built for one loop iteration
(src/tools/trigger-enhanced-sampling.ts, lines 226-245): on the last permitted
iteration the tools and toolChoice fields are forced to undefined; otherwise
the full catalog and the callers chosen mode are offered. -/
def buildRequest (history : List SamplingMessage) (sys : Option String)
    (mt : Int) (tcm : ToolChoiceMode) (iteration maxIterations : Int) :
    CreateMessageParams :=
  { messages := history
  , systemPrompt := jsOrDefault sys
      "You are a helpful assistant with access to tools. Use them when needed to answer questions accurately."
  , maxTokens := mt
  , tools := if iteration = maxIterations - 1 then none else some sampleTools
  , toolChoice := if iteration = maxIterations - 1 then none else some { mode := tcm } }

/-- State of the agent loop: the conversation history, the per-iteration
report entries, and the log of sampling requests issued so far (the last one
is not a source variable; it makes the requests the loop sends observable). -/
structure LoopState where
  history : List SamplingMessage
  results : List IterationResult
  requests : List CreateMessageParams

/-- One-to-one transcription of the for loop of
src/tools/trigger-enhanced-sampling.ts, lines 226-327, with the remaining
iteration count as structural fuel: each step issues one request; on a
toolUse stop with at least one extracted call it appends the assistant
message and one user message holding all tool results and recurses; any
other outcome records the text response and leaves the loop. -/
def runIterations (env : MockEnv) (client : CreateMessageParams → CreateMessageResult)
    (sys : Option String) (mt : Int) (tcm : ToolChoiceMode) (M : Int) :
    Nat → Int → LoopState → LoopState
  | 0, _, st => st
  | fuel + 1, iteration, st =>
    let req := buildRequest st.history sys mt tcm iteration M
    let result := client req
    if result.stopReason = some "toolUse" ∧ extractToolCalls result.content ≠ [] then
      runIterations env client sys mt tcm M fuel (iteration + 1)
        { history := st.history ++
            [ { role := "assistant", content := result.content }
            , { role := "user"
              , content := MessageContent.array (toolResultsContent env (extractToolCalls result.content)) } ]
        , results := st.results ++
            [ { iteration := iteration + 1
              , stopReason := result.stopReason
              , toolCalls := some (toolCallRecords env (extractToolCalls result.content))
              , textResponse := none } ]
        , requests := st.requests ++ [req] }
    else
      { history := st.history
      , results := st.results ++
          [ { iteration := iteration + 1
            , stopReason := result.stopReason
            , toolCalls := none
            , textResponse := some (extractText result.content) } ]
      , requests := st.requests ++ [req] }

/-- Initial loop state: the conversation seeded with the user prompt
(src/tools/trigger-enhanced-sampling.ts, lines 212-217). -/
def initState (prompt : String) : LoopState :=
  { history := [{ role := "user", content := MessageContent.single (Content.text prompt) }]
  , results := []
  , requests := [] }

/-- Whole agent loop for includeTools = true: the for loop runs while
iteration < maxIterations, hence at most toNat maxIterations times. -/
def runAgentLoop (env : MockEnv) (client : CreateMessageParams → CreateMessageResult)
    (sys : Option String) (mt : Int) (tcm : ToolChoiceMode) (M : Int)
    (prompt : String) : LoopState :=
  runIterations env client sys mt tcm M M.toNat 0 (initState prompt)

/-- Final response text of the report
(src/tools/trigger-enhanced-sampling.ts, lines 330-331): the textResponse of
the last iteration entry, with undefined and the empty string falling back to
the fixed fallback text. -/
def finalResponseOf (results : List IterationResult) : String :=
  jsOrDefault (results.getLast?.bind fun r => r.textResponse) "No final response"

/-- Arguments of the trigger-enhanced-sampling tool after schema validation
(src/tools/trigger-enhanced-sampling.ts, TriggerEnhancedSamplingSchema). -/
structure TriggerArgs where
  prompt : String
  maxTokens : Int
  systemPrompt : Option String
  includeTools : Bool
  toolChoice : ToolChoiceMode
  maxIterations : Int
  deriving Repr

/-- Request of the basic no-tools branch
(src/tools/trigger-enhanced-sampling.ts, lines 176-195). -/
def basicRequest (args : TriggerArgs) : CreateMessageParams :=
  { messages := [{ role := "user", content := MessageContent.single (Content.text args.prompt) }]
  , systemPrompt := jsOrDefault args.systemPrompt "You are a helpful assistant."
  , maxTokens := args.maxTokens
  , tools := none
  , toolChoice := none }

/-- Handler body of the trigger-enhanced-sampling tool. Returns the final
response text together with the list of sampling requests it issued. The
surrounding report formatting (headers and per-iteration detail lines) is
plain string concatenation around finalResponseOf and the entry count and is
not modelled further. -/
def triggerHandler (env : MockEnv) (client : CreateMessageParams → CreateMessageResult)
    (args : TriggerArgs) : String × List CreateMessageParams :=
  if args.includeTools = false then
    let req := basicRequest args
    ("Sampling Result (no tools):\n" ++ env.stringifyResult (client req), [req])
  else
    let st := runAgentLoop env client args.systemPrompt args.maxTokens args.toolChoice
      args.maxIterations args.prompt
    (finalResponseOf st.results, st.requests)

/-- Client capabilities as read by the registration function: the only field
it inspects is whether sampling is present (not undefined). -/
structure ClientCapabilities where
  sampling : Bool
  deriving DecidableEq, Repr

/-- Test of src/tools/trigger-enhanced-sampling.ts lines 153-155:
getClientCapabilities may yield undefined (modelled none, replaced by an empty
object), and support means the sampling field is not undefined. -/
def clientSupportsSampling (caps : Option ClientCapabilities) : Bool :=
  match caps with
  | none => false
  | some c => c.sampling

/-- Registration guard of src/tools/trigger-enhanced-sampling.ts lines
151-162: the tool is registered if and only if the client supports sampling;
otherwise the function returns without registering anything. -/
def registerTriggerEnhancedSamplingTool (caps : Option ClientCapabilities) : Bool :=
  clientSupportsSampling caps

/-- Outcome of asking the server to run a named tool. -/
inductive CallOutcome where
  | handled (finalText : String)
  | unknownTool
  deriving DecidableEq, Repr

/-- Modelled from the spec: the protocol layer dispatch of a tool call (the
registerTool / tool routing machinery lives in the SDK, not under src/).
Per section 6 of the spec, a call is routed to a registered handler; a call
naming a tool that was never registered is rejected by the protocol layer
with its unknown-tool error, no handler code runs, and no sampling request is
sent. -/
def callTriggerTool (env : MockEnv) (client : CreateMessageParams → CreateMessageResult)
    (caps : Option ClientCapabilities) (args : TriggerArgs) :
    CallOutcome × List CreateMessageParams :=
  if registerTriggerEnhancedSamplingTool caps then
    let r := triggerHandler env client args
    (CallOutcome.handled r.1, r.2)
  else
    (CallOutcome.unknownTool, [])

/-! Resumable event log, modelled from the spec. -/

/-- Modelled from the spec: the per-session resumable event log (the
InMemoryEventStore the streamable HTTP transport passes to the SDK transport
is imported from the SDK examples and is not under src/). Section 4.3 of the
spec: entries carry strictly increasing sequence numbers starting at 1 with
no gaps. -/
structure EventLog where
  entries : List (Nat × String)
  deriving DecidableEq, Repr

/-- Empty event log of a fresh session. -/
def EventLog.empty : EventLog := { entries := [] }

/-- Modelled from the spec: append assigns the next sequence number
(length so far plus one) and returns it. -/
def EventLog.append (log : EventLog) (payload : String) : EventLog × Nat :=
  let seq := log.entries.length + 1
  ({ entries := log.entries ++ [(seq, payload)] }, seq)

/-- Modelled from the spec: replay returns every entry whose sequence number
is strictly greater than the supplied marker, in stored order. -/
def EventLog.replay (log : EventLog) (after : Nat) : List (Nat × String) :=
  log.entries.filter fun e => decide (after < e.1)

/-- Log obtained by appending the given payloads in order to a fresh log. -/
def logOf (payloads : List String) : EventLog :=
  payloads.foldl (fun l p => (l.append p).1) EventLog.empty

/-! Streamable HTTP endpoint handlers (src/transports/streamableHttp.ts). -/

/-- HTTP method of a request to the /mcp endpoint. -/
inductive Method where
  | post
  | get
  | delete
  deriving DecidableEq, Repr

/-- Request to the /mcp endpoint as the handlers read it: the method, the
mcp-session-id header (undefined when absent; the empty string is a present
but empty value) and the id field of the JSON body. -/
structure HttpRequest where
  method : Method
  sessionId : Option String
  bodyId : Option String
  deriving DecidableEq, Repr

/-- Response of an /mcp handler, abstracted to the outcomes the handlers
distinguish: the structured 400 error body (code, message, id echoed from the
body), delegation of a fresh transport initialization, or routing to the
existing transport of the session. -/
inductive McpResponse where
  | badRequest (code : Int) (message : String) (id : Option String)
  | delegatedNew
  | routed (sid : String)
  deriving DecidableEq, Repr

/-- JavaScript truthiness of a string that may be undefined: undefined and
the empty string are falsy. -/
def jsTruthy : Option String → Bool
  | none => false
  | some s => !s.isEmpty

/-- Structured 400 body sent by all three handlers
(src/transports/streamableHttp.ts, lines 134-141, 170-177, 200-207). -/
def badSessionResponse (req : HttpRequest) : McpResponse :=
  McpResponse.badRequest (-32000) "Bad Request: No valid session ID provided" req.bodyId

/-- POST /mcp handler (src/transports/streamableHttp.ts, lines 71-163).
The map of transports is the list of registered session ids. A truthy header
naming a known session routes to it; a falsy header starts a fresh transport
whose registration is driven by the SDK session-initialized callback
(the oracle initResult names the fresh session id when the handshake
completes, none when it does not); a truthy header naming an unknown session
gets the structured 400 and touches nothing. -/
def handlePost (initResult : Option String) (transports : List String)
    (req : HttpRequest) : McpResponse × List String :=
  if jsTruthy req.sessionId && transports.contains (req.sessionId.getD "") then
    (McpResponse.routed (req.sessionId.getD ""), transports)
  else if !jsTruthy req.sessionId then
    match initResult with
    | some sid => (McpResponse.delegatedNew, transports ++ [sid])
    | none => (McpResponse.delegatedNew, transports)
  else
    (badSessionResponse req, transports)

/-- GET /mcp handler (src/transports/streamableHttp.ts, lines 166-191):
a falsy or unknown session header gets the structured 400; otherwise the
request is routed to the existing transport. -/
def handleGet (transports : List String) (req : HttpRequest) :
    McpResponse × List String :=
  if !jsTruthy req.sessionId || !transports.contains (req.sessionId.getD "") then
    (badSessionResponse req, transports)
  else
    (McpResponse.routed (req.sessionId.getD ""), transports)

/-- DELETE /mcp handler (src/transports/streamableHttp.ts, lines 194-233):
same guard as GET before delegating the termination to the transport. -/
def handleDelete (transports : List String) (req : HttpRequest) :
    McpResponse × List String :=
  if !jsTruthy req.sessionId || !transports.contains (req.sessionId.getD "") then
    (badSessionResponse req, transports)
  else
    (McpResponse.routed (req.sessionId.getD ""), transports)

/-- Dispatch of an /mcp request to the handler of its method. -/
def handleMcp (initResult : Option String) (transports : List String)
    (req : HttpRequest) : McpResponse × List String :=
  match req.method with
  | Method.post => handlePost initResult transports req
  | Method.get => handleGet transports req
  | Method.delete => handleDelete transports req

/-! Session creation order (src/transports/streamableHttp.ts and
src/transports/sse.ts). -/

/-- Observable events of a new-session handler, in execution order. -/
inductive SessionEvent where
  | createTransport
  | connectDone
  | handshakeDone
  | register
  deriving DecidableEq, Repr

/-- New-session path of the streamable HTTP POST handler
(src/transports/streamableHttp.ts, lines 86-131): the transport is created,
the server is connected to it, and only when the SDK fires the
session-initialized callback during request handling (the handshake) is the
transport stored in the map; a handshake that does not complete registers
nothing. -/
def streamableHttpNewSession (transports : List String) (sid : String)
    (handshakeCompletes : Bool) : List String × List SessionEvent :=
  if handshakeCompletes then
    (transports ++ [sid],
      [SessionEvent.createTransport, SessionEvent.connectDone,
       SessionEvent.handshakeDone, SessionEvent.register])
  else
    (transports,
      [SessionEvent.createTransport, SessionEvent.connectDone])

/-- New-session path of the SSE GET handler (src/transports/sse.ts, lines
77-84): the transport is created, stored in the map, and only then is the
server connected to it. -/
def sseNewSession (transports : List String) (sid : String) :
    List String × List SessionEvent :=
  (transports ++ [sid],
    [SessionEvent.createTransport, SessionEvent.register, SessionEvent.connectDone])

/-- Holds when the first registration event of a trace comes strictly after
the first completed-connection event (and vacuously when nothing is
registered). -/
def registeredOnlyAfterConnect (tr : List SessionEvent) : Bool :=
  match tr.findIdx? (fun e => decide (e = SessionEvent.register)),
        tr.findIdx? (fun e => decide (e = SessionEvent.connectDone)) with
  | some ri, some ci => decide (ci < ri)
  | some _, none => false
  | none, _ => true

/-! SSE GET handler with a sessionId query parameter
(src/transports/sse.ts, lines 64-108). -/

/-- Outcome of the SSE GET handler: an undefined-dereference crash (the
handler reads the sessionId property of the result of a map lookup that
returned undefined), the log-only reconnect branch for a known session, or a
fresh stream whose transport is registered. -/
inductive SseGetOutcome where
  | crashUndefined
  | reconnectLog (sid : String)
  | newStream (sid : String)
  deriving DecidableEq, Repr

/-- GET /sse handler (src/transports/sse.ts, lines 64-108): a truthy
sessionId query parameter selects the reconnect branch, which looks the id up
in the map and immediately dereferences the result; an unknown id therefore
crashes with an undefined dereference and no structured error is sent. A
falsy parameter creates a fresh transport (its generated id is the parameter
freshSid), registers it, and connects the server. -/
def sseHandleGet (transports : List String) (query : Option String)
    (freshSid : String) : SseGetOutcome × List String :=
  if jsTruthy query then
    if transports.contains (query.getD "") then
      (SseGetOutcome.reconnectLog (query.getD ""), transports)
    else
      (SseGetOutcome.crashUndefined, transports)
  else
    (SseGetOutcome.newStream freshSid, transports ++ [freshSid])

/-! Concrete instances used by the witness statements. -/

/-- Concrete oracle environment: evaluation and timezone oracles that always
fail, a constant weather text and a constant stringifier. -/
def defaultEnv : MockEnv :=
  { getWeather := fun _ => "weather"
  , evalExpr := fun _ => none
  , timeInZone := fun _ => none
  , stringifyResult := fun _ => "result" }

/-- Concrete client that always ends the turn with a short text. -/
def defaultClient : CreateMessageParams → CreateMessageResult :=
  fun _ => { stopReason := some "endTurn", content := MessageContent.single (Content.text "ok") }

/-- Concrete pair of tool calls used by witness statements. -/
def witnessCalls : List ToolUseContent :=
  [ { id := "tu1", name := "calculate"
    , input := { city := none, expression := some "1+1", timezone := none } }
  , { id := "tu2", name := "get_weather"
    , input := { city := some "Paris", expression := none, timezone := none } } ]

/-- Concrete client that always asks for the two witness tool calls. -/
def toolUseClient : CreateMessageParams → CreateMessageResult :=
  fun _ =>
    { stopReason := some "toolUse"
    , content := MessageContent.array (witnessCalls.map Content.toolUse) }


/-! Helper lemmas. -/

/-- Lookup in a list extended by one element on the right: the index hits the
old part or is exactly the old length. -/
theorem get?_append_singleton_cases {α : Type} (l : List α) (x : α) (i : Nat) (y : α)
    (h : (l ++ [x]).get? i = some y) :
    (i < l.length ∧ l.get? i = some y) ∨ (i = l.length ∧ y = x) := by
  rcases lt_trichotomy i l.length with hi | hi | hi
  · exact Or.inl ⟨hi, by rwa [List.get?_append hi] at h⟩
  · subst hi
    rw [List.get?_concat_length] at h
    exact Or.inr ⟨rfl, (Option.some_inj.mp h).symm⟩
  · exfalso
    have hnone : (l ++ [x]).get? i = none := by
      rw [List.get?_eq_none]
      simp
      omega
    rw [hnone] at h
    exact Option.noConfusion h

/-- Each loop step issues exactly one request, so a run with the given fuel
adds at most fuel requests. -/
theorem runIterations_length (env : MockEnv) (client : CreateMessageParams → CreateMessageResult)
    (sys : Option String) (mt : Int) (tcm : ToolChoiceMode) (M : Int) :
    ∀ (fuel : Nat) (iteration : Int) (st : LoopState),
      (runIterations env client sys mt tcm M fuel iteration st).requests.length
        ≤ st.requests.length + fuel := by
  intro fuel
  induction fuel with
  | zero =>
    intro iteration st
    simp [runIterations]
  | succ n ih =>
    intro iteration st
    simp only [runIterations]
    split
    · refine le_trans (ih (iteration + 1) _) ?_
      simp only [List.length_append, List.length_cons, List.length_nil]
      omega
    · simp only [List.length_append, List.length_cons, List.length_nil]
      omega

/-- Shape of the request built for loop index i: the tool catalog and the
tool choice directive are withheld exactly on the last permitted index. -/
def reqShape (tcm : ToolChoiceMode) (M : Int) (i : Nat) (req : CreateMessageParams) : Prop :=
  req.tools = (if (i : Int) = M - 1 then none else some sampleTools)
  ∧ req.toolChoice = (if (i : Int) = M - 1 then none else some { mode := tcm })

/-- Invariant of the loop: when the iteration counter equals the number of
requests issued so far, every request in the log of the completed run has the
shape determined by its index. -/
theorem runIterations_reqShape (env : MockEnv)
    (client : CreateMessageParams → CreateMessageResult) (sys : Option String)
    (mt : Int) (tcm : ToolChoiceMode) (M : Int) :
    ∀ (fuel : Nat) (iteration : Int) (st : LoopState),
      iteration = (st.requests.length : Int) →
      (∀ i req, st.requests.get? i = some req → reqShape tcm M i req) →
      ∀ i req,
        (runIterations env client sys mt tcm M fuel iteration st).requests.get? i = some req →
        reqShape tcm M i req := by
  intro fuel
  induction fuel with
  | zero =>
    intro iteration st _ h i req hget
    exact h i req (by simpa [runIterations] using hget)
  | succ n ih =>
    intro iteration st hiter h i req hget
    have hnew : ∀ j r,
        (st.requests ++ [buildRequest st.history sys mt tcm iteration M]).get? j = some r →
        reqShape tcm M j r := by
      intro j r hj
      rcases get?_append_singleton_cases _ _ _ _ hj with ⟨_, hold⟩ | ⟨heq, hx⟩
      · exact h j r hold
      · subst heq
        subst hx
        subst hiter
        exact ⟨rfl, rfl⟩
    simp only [runIterations] at hget
    split at hget
    · refine ih _ _ ?_ hnew i req hget
      simp only [List.length_append, List.length_cons, List.length_nil, Nat.cast_add,
        Nat.cast_one, hiter]
      omega
    · exact hnew i req hget

/-- Appending one payload extends the log by one entry. -/
theorem logOf_concat (ps : List String) (p : String) :
    logOf (ps ++ [p]) = ((logOf ps).append p).1 := by
  simp [logOf, List.foldl_append]

/-- The log of n appends holds n entries. -/
theorem logOf_length (ps : List String) : (logOf ps).entries.length = ps.length := by
  induction ps using List.reverseRecOn with
  | nil => rfl
  | append_singleton l a ih => simp [logOf_concat, EventLog.append, ih]

/-- Every sequence number in the log of the given appends is at most the
number of appends. -/
theorem logOf_seq_le (ps : List String) :
    ∀ e ∈ (logOf ps).entries, e.1 ≤ ps.length := by
  induction ps using List.reverseRecOn with
  | nil =>
    intro e he
    simp [logOf, EventLog.empty] at he
  | append_singleton l a ih =>
    intro e he
    rw [logOf_concat] at he
    simp only [EventLog.append, List.mem_append, List.mem_singleton] at he
    simp only [List.length_append, List.length_cons, List.length_nil]
    rcases he with he | he
    · have := ih e he
      omega
    · subst he
      simp only [logOf_length]
      omega

/-! Claim C3. -/

/-- C3: for a session log built by appending entries a1..an, replay with
marker k returns exactly the entries a(k+1)..an in ascending sequence order
(sequence numbers k+1 through n), with no duplicates and no omissions, for
every 0 <= k <= n. Spec-modelled: the InMemoryEventStore is SDK code, not
under src/, so the store is modelled from section 4.3 of the spec. -/
theorem c3_replay_exact (ps : List String) (k : Nat) (hk : k ≤ ps.length) :
    ((logOf ps).replay k).map Prod.snd = ps.drop k
    ∧ ((logOf ps).replay k).map Prod.fst = List.range' (k + 1) (ps.length - k) := by
  induction ps using List.reverseRecOn generalizing k with
  | nil =>
    have hz : k = 0 := Nat.le_zero.mp hk
    subst hz
    exact ⟨rfl, rfl⟩
  | append_singleton l a ih =>
    have hlen : (logOf l).entries.length = l.length := logOf_length l
    have hstep : (logOf (l ++ [a])).replay k
        = (logOf l).replay k
          ++ ([((logOf l).entries.length + 1, a)].filter fun e => decide (k < e.1)) := by
      rw [logOf_concat]
      simp only [EventLog.append, EventLog.replay, List.filter_append]
    by_cases hkl : k ≤ l.length
    · obtain ⟨ih1, ih2⟩ := ih k hkl
      have hkeep : ([((logOf l).entries.length + 1, a)].filter fun e => decide (k < e.1))
          = [((logOf l).entries.length + 1, a)] := by
        simp only [List.filter_cons, List.filter_nil, hlen, decide_eq_true_eq]
        rw [if_pos (by omega)]
      constructor
      · rw [hstep, hkeep, List.map_append, ih1]
        simp only [List.map_cons, List.map_nil]
        rw [List.drop_append_eq_append_drop, Nat.sub_eq_zero_of_le hkl]
        rfl
      · rw [hstep, hkeep, List.map_append, ih2]
        simp only [List.map_cons, List.map_nil, hlen]
        have hn : (l ++ [a]).length - k = (l.length - k) + 1 := by
          simp only [List.length_append, List.length_cons, List.length_nil]
          omega
        rw [hn, List.range'_concat]
        have : k + 1 + 1 * (l.length - k) = l.length + 1 := by omega
        rw [this]
    · have hkk : k = l.length + 1 := by
        simp only [List.length_append, List.length_cons, List.length_nil] at hk
        omega
      have hempty : (logOf l).replay k = [] := by
        rw [EventLog.replay, List.filter_eq_nil_iff]
        intro e he
        have := logOf_seq_le l e he
        simp only [decide_eq_true_eq]
        omega
      have hdropnew : ([((logOf l).entries.length + 1, a)].filter fun e => decide (k < e.1))
          = [] := by
        simp only [List.filter_cons, List.filter_nil, hlen, hkk, decide_eq_true_eq]
        rw [if_neg (by omega)]
      have hdrop : (l ++ [a]).drop k = [] := by
        apply List.drop_eq_nil_of_le
        simp only [List.length_append, List.length_cons, List.length_nil]
        omega
      have hrange : (l ++ [a]).length - k = 0 := by
        simp only [List.length_append, List.length_cons, List.length_nil]
        omega
      rw [hstep, hempty, hdropnew, hdrop, hrange]
      exact ⟨rfl, rfl⟩

/-- C3 witness: replay after marker 1 on a three-entry log returns entries
two and three with sequence numbers 2 and 3. -/
theorem c3_replay_exact_witness :
    ((logOf ["a", "b", "c"]).replay 1).map Prod.snd = (["a", "b", "c"] : List String).drop 1
    ∧ ((logOf ["a", "b", "c"]).replay 1).map Prod.fst
        = List.range' (1 + 1) ((["a", "b", "c"] : List String).length - 1) :=
  c3_replay_exact ["a", "b", "c"] 1 (by decide)

/-! Claims C4 and C5. -/

/-- C4 counterexample: a POST carrying the session header with the empty
string as its value — a value that is not in the transports map — is treated
by the handler as carrying no session id at all: it is not answered with the
structured 400 error and, when the initialization handshake completes, it
even registers a new session, changing the transports map. -/
theorem c4_empty_header_post_not_400 :
    (handleMcp (some "s1") [] { method := Method.post, sessionId := some "", bodyId := none }).1
        ≠ badSessionResponse { method := Method.post, sessionId := some "", bodyId := none }
    ∧ (handleMcp (some "s1") [] { method := Method.post, sessionId := some "", bodyId := none }).2
        ≠ ([] : List String) := by
  decide

/-- C4 amended: every /mcp request that provides a session identifier the
handlers treat as present — a nonempty header value — that is not in the
transports map is answered with the structured 400 error body (code, message
and the id echoed from the request body) and leaves the transports map
unchanged; for GET and DELETE the same holds when the header is absent or
empty. A POST whose header value is the empty string is instead treated as
carrying no session id and starts a new initialization. -/
theorem c4_unknown_session_400 (initResult : Option String)
    (transports : List String) (req : HttpRequest)
    (h : (req.method = Method.post ∧ jsTruthy req.sessionId = true
            ∧ transports.contains (req.sessionId.getD "") = false)
       ∨ ((req.method = Method.get ∨ req.method = Method.delete)
            ∧ (jsTruthy req.sessionId = false
               ∨ transports.contains (req.sessionId.getD "") = false))) :
    handleMcp initResult transports req = (badSessionResponse req, transports) := by
  obtain ⟨hm, ht, hc⟩ | ⟨hm, hd⟩ := h
  · have hc' : req.sessionId.getD "" ∉ transports := by simpa using hc
    simp [handleMcp, hm, handlePost, ht, hc']
  · have hd' : jsTruthy req.sessionId = false ∨ req.sessionId.getD "" ∉ transports := by
      rcases hd with hd | hd
      · exact Or.inl hd
      · exact Or.inr (by simpa using hd)
    rcases hm with hm | hm <;> rcases hd' with hd' | hd' <;>
      simp [handleMcp, hm, handleGet, handleDelete, hd']

/-- C4 witness: a DELETE with an unknown session id on a one-session map is
answered with the structured 400 and the map is unchanged. -/
theorem c4_unknown_session_400_witness :
    handleMcp none ["a1"] { method := Method.delete, sessionId := some "zzz", bodyId := some "7" }
      = (badSessionResponse { method := Method.delete, sessionId := some "zzz", bodyId := some "7" },
         ["a1"]) :=
  c4_unknown_session_400 none ["a1"] _ (Or.inr ⟨Or.inr rfl, Or.inr (by decide)⟩)

/-- C5 counterexample: in the push-only SSE variant the new-session handler
stores the transport in the session map strictly before the server is
connected to it, so it is not the case that in either variant the handle is
registered only after the connection handshake completes. -/
theorem c5_sse_registers_before_connect :
    registeredOnlyAfterConnect (sseNewSession [] "s1").2 = false := by
  decide

/-- C5 amended: in the resumable streamable HTTP variant the transport is
registered only after the connection and the session-initialized handshake
complete (and never when the handshake does not complete), while in the
push-only SSE variant the transport is registered in the map strictly before
the server is connected to it. -/
theorem c5_registration_order (transports : List String) (sid : String)
    (handshakeCompletes : Bool) :
    registeredOnlyAfterConnect (streamableHttpNewSession transports sid handshakeCompletes).2 = true
    ∧ (sseNewSession transports sid).2.findIdx? (fun e => decide (e = SessionEvent.register))
        = some 1
    ∧ (sseNewSession transports sid).2.findIdx? (fun e => decide (e = SessionEvent.connectDone))
        = some 2 := by
  cases handshakeCompletes <;> exact ⟨rfl, rfl, rfl⟩

/-! Claim C6. -/

/-- C6 counterexample: with a connected client whose capabilities lack
sampling, a requested tool-augmented orchestration run is not answered by any
handler result — in particular not by a capability-mismatch labeled error
result — because the tool was never registered: the call is rejected at the
protocol layer as an unknown tool, with no sampling request sent. -/
theorem c6_no_capability_error_result :
    callTriggerTool defaultEnv defaultClient (some { sampling := false })
        { prompt := "hi", maxTokens := 10, systemPrompt := none
        , includeTools := true, toolChoice := ToolChoiceMode.auto, maxIterations := 3 }
      = (CallOutcome.unknownTool, []) := rfl

/-- C6 amended: whenever the connected client does not support sampling, the
trigger-enhanced-sampling tool is never registered, so a requested
tool-augmented orchestration run does not start the loop and no sampling
request is ever sent; the request is rejected at the protocol layer as an
unknown tool rather than answered with a tool-level capability-mismatch
error result. -/
theorem c6_unregistered_without_sampling (env : MockEnv)
    (client : CreateMessageParams → CreateMessageResult)
    (caps : Option ClientCapabilities) (args : TriggerArgs)
    (h : clientSupportsSampling caps = false) :
    callTriggerTool env client caps args = (CallOutcome.unknownTool, []) := by
  simp [callTriggerTool, registerTriggerEnhancedSamplingTool, h]

/-- C6 witness: concrete unsupported-capabilities call. -/
theorem c6_unregistered_without_sampling_witness :
    clientSupportsSampling (some { sampling := false }) = false
    ∧ callTriggerTool defaultEnv defaultClient (some { sampling := false })
        { prompt := "p", maxTokens := 5, systemPrompt := none
        , includeTools := true, toolChoice := ToolChoiceMode.required, maxIterations := 2 }
        = (CallOutcome.unknownTool, []) :=
  ⟨rfl, c6_unregistered_without_sampling defaultEnv defaultClient _ _ rfl⟩

/-! Claims C8 and C9. -/

/-- C8: for every tool name outside the fixed capability set get_weather,
calculate, get_time and every input payload, executeMockTool returns the
deterministic unknown-tool text rather than raising an error, so the
invocation still receives a result. -/
theorem c8_unknown_tool_text (env : MockEnv) (name : String) (input : ToolInput)
    (h1 : name ≠ "get_weather") (h2 : name ≠ "calculate") (h3 : name ≠ "get_time") :
    executeMockTool env name input = "Unknown tool: " ++ name := by
  simp [executeMockTool, h1, h2, h3]

/-- C8 witness: the unknown-tool text at a concrete unknown name. -/
theorem c8_unknown_tool_text_witness :
    executeMockTool defaultEnv "lookup_db" { city := none, expression := none, timezone := none }
      = "Unknown tool: lookup_db" :=
  c8_unknown_tool_text defaultEnv "lookup_db" _ (by decide) (by decide) (by decide)

/-- C9: with includeTools true and a nonpositive maxIterations, the loop body
never executes: no sampling request is issued, the per-iteration report is
empty (the reported total iteration count is the length of the empty report),
and the final response text is exactly the fixed fallback text. -/
theorem c9_nonpositive_iterations (env : MockEnv)
    (client : CreateMessageParams → CreateMessageResult) (sys : Option String)
    (mt : Int) (tcm : ToolChoiceMode) (prompt : String) (M : Int) (hM : M ≤ 0) :
    (runAgentLoop env client sys mt tcm M prompt).requests = []
    ∧ (runAgentLoop env client sys mt tcm M prompt).results = []
    ∧ finalResponseOf (runAgentLoop env client sys mt tcm M prompt).results
        = "No final response" := by
  have h0 : M.toNat = 0 := Int.toNat_of_nonpos hM
  refine ⟨?_, ?_, ?_⟩ <;>
    simp [runAgentLoop, h0, runIterations, initState, finalResponseOf, jsOrDefault]

/-- C9 witness: the zero-iterations run at maxIterations zero. -/
theorem c9_nonpositive_iterations_witness :
    (0 : Int) ≤ 0
    ∧ ((runAgentLoop defaultEnv defaultClient none 5 ToolChoiceMode.auto 0 "hi").requests = []
       ∧ (runAgentLoop defaultEnv defaultClient none 5 ToolChoiceMode.auto 0 "hi").results = []
       ∧ finalResponseOf (runAgentLoop defaultEnv defaultClient none 5 ToolChoiceMode.auto 0 "hi").results
           = "No final response") :=
  ⟨by decide,
   c9_nonpositive_iterations defaultEnv defaultClient none 5 ToolChoiceMode.auto "hi" 0 (by decide)⟩

/-! Claim C10. -/

/-- C10 counterexample: a GET stream request whose sessionId query parameter
is present with the empty string as value — a falsy value — does create and
register a new session, so it is not the case that every request carrying a
sessionId query parameter leaves the session set unchanged. -/
theorem c10_empty_query_creates_session :
    sseHandleGet [] (some "") "fresh" = (SseGetOutcome.newStream "fresh", ["fresh"]) := rfl

/-- C10 amended: a GET stream request carrying a nonempty sessionId query
parameter never creates or registers a session and leaves the transports map
unchanged; when that nonempty sessionId is not in the map the handler
dereferences the undefined lookup result, so the fault branch is reachable
and no structured 400 client error is returned. An empty-valued sessionId
parameter is falsy and behaves like an absent one, starting a new session. -/
theorem c10_sse_get_with_session (transports : List String) (q : Option String)
    (freshSid : String) (h : jsTruthy q = true) :
    (sseHandleGet transports q freshSid).2 = transports
    ∧ (∀ sid, (sseHandleGet transports q freshSid).1 ≠ SseGetOutcome.newStream sid)
    ∧ (transports.contains (q.getD "") = false →
        (sseHandleGet transports q freshSid).1 = SseGetOutcome.crashUndefined) := by
  cases hc : transports.contains (q.getD "") with
  | false =>
    have hc' : q.getD "" ∉ transports := by simpa using hc
    simp [sseHandleGet, h, hc, hc']
  | true =>
    have hc' : q.getD "" ∈ transports := by simpa using hc
    simp [sseHandleGet, h, hc, hc']

/-- C10 witness: a GET with an unknown nonempty sessionId on an empty map
leaves the map unchanged and reaches the undefined dereference. -/
theorem c10_sse_get_with_session_witness :
    jsTruthy (some "abc") = true
    ∧ (sseHandleGet [] (some "abc") "f").2 = ([] : List String)
    ∧ (sseHandleGet [] (some "abc") "f").1 = SseGetOutcome.crashUndefined := by
  refine ⟨by decide, (c10_sse_get_with_session [] (some "abc") "f" (by decide)).1, ?_⟩
  exact (c10_sse_get_with_session [] (some "abc") "f" (by decide)).2.2 (by decide)

/-! Claim C7. -/

/-- C7: the calculate branch of executeMockTool validates the expression
against the narrow accepted grammar (digits, the operators plus, minus,
times, divide, percent, parentheses, decimal points, whitespace) before
evaluating it: on a validation failure the returned error marker is the same
whatever the evaluation oracle, so the evaluator is never consulted; a failed
evaluation also yields a textual error marker; and every possible outcome is
either an error marker or the result text of a successful evaluation, so the
executor returns a text in every case and never throws. -/
theorem c7_calculate_validates (env : MockEnv) (f g : String → Option String)
    (input : ToolInput) :
    (validExpr (jsString input.expression) = false →
      executeMockTool { env with evalExpr := f } "calculate" input
          = "Error: Invalid expression. Only basic math operations allowed."
        ∧ executeMockTool { env with evalExpr := g } "calculate" input
          = "Error: Invalid expression. Only basic math operations allowed.")
    ∧ (validExpr (jsString input.expression) = true →
        env.evalExpr (jsString input.expression) = none →
        executeMockTool env "calculate" input = "Error: Could not evaluate expression")
    ∧ (executeMockTool env "calculate" input
          = "Error: Invalid expression. Only basic math operations allowed."
        ∨ executeMockTool env "calculate" input = "Error: Could not evaluate expression"
        ∨ ∃ r, env.evalExpr (jsString input.expression) = some r
            ∧ executeMockTool env "calculate" input = "Result: " ++ r) := by
  refine ⟨?_, ?_, ?_⟩
  · intro hv
    constructor <;> simp [executeMockTool, hv]
  · intro hv he
    simp [executeMockTool, hv, he]
  · by_cases hv : validExpr (jsString input.expression)
    · cases he : env.evalExpr (jsString input.expression) with
      | none =>
        right
        left
        simp [executeMockTool, hv, he]
      | some r =>
        right
        right
        exact ⟨r, rfl, by simp [executeMockTool, hv, he]⟩
    · left
      simp [executeMockTool, hv]

/-- C7 witness: a concrete invalid expression gets the validation error
marker under two different evaluation oracles. -/
theorem c7_calculate_validates_witness :
    validExpr (jsString (some "2+a")) = false
    ∧ executeMockTool { defaultEnv with evalExpr := fun _ => some "9" } "calculate"
        { city := none, expression := some "2+a", timezone := none }
        = "Error: Invalid expression. Only basic math operations allowed."
    ∧ executeMockTool { defaultEnv with evalExpr := fun _ => none } "calculate"
        { city := none, expression := some "2+a", timezone := none }
        = "Error: Invalid expression. Only basic math operations allowed." := by
  refine ⟨by decide, ?_, ?_⟩
  · exact ((c7_calculate_validates defaultEnv (fun _ => some "9") (fun _ => none)
      { city := none, expression := some "2+a", timezone := none }).1 (by decide)).1
  · exact ((c7_calculate_validates defaultEnv (fun _ => some "9") (fun _ => none)
      { city := none, expression := some "2+a", timezone := none }).1 (by decide)).2

/-! Claim C2. -/

/-- C2: in every iteration whose sampling result has stop condition toolUse
with a nonempty list of extracted tool invocations, the loop appends to the
conversation, before the next iteration begins, the assistant message
followed by exactly one user message whose content is the list of tool
results — one entry per invocation, in order, each tagged with the identifier
of its invocation — so the number of appended tool-result entries equals the
number of tool invocations produced in the turn. -/
theorem c2_tool_results_complete (env : MockEnv)
    (client : CreateMessageParams → CreateMessageResult) (sys : Option String)
    (mt : Int) (tcm : ToolChoiceMode) (M : Int) (fuel : Nat) (iteration : Int)
    (st : LoopState) (calls : List ToolUseContent)
    (hstop : (client (buildRequest st.history sys mt tcm iteration M)).stopReason
        = some "toolUse")
    (hcalls : extractToolCalls (client (buildRequest st.history sys mt tcm iteration M)).content
        = calls)
    (hne : calls ≠ []) :
    runIterations env client sys mt tcm M (fuel + 1) iteration st
      = runIterations env client sys mt tcm M fuel (iteration + 1)
          { history := st.history ++
              [ { role := "assistant"
                , content := (client (buildRequest st.history sys mt tcm iteration M)).content }
              , { role := "user"
                , content := MessageContent.array (toolResultsContent env calls) } ]
          , results := st.results ++
              [ { iteration := iteration + 1
                , stopReason := some "toolUse"
                , toolCalls := some (toolCallRecords env calls)
                , textResponse := none } ]
          , requests := st.requests ++ [buildRequest st.history sys mt tcm iteration M] }
    ∧ (toolResultsContent env calls).length = calls.length
    ∧ ∀ i (h : i < calls.length),
        (toolResultsContent env calls).get? i
          = some (Content.toolResult (calls.get ⟨i, h⟩).id
              (executeMockTool env (calls.get ⟨i, h⟩).name (calls.get ⟨i, h⟩).input)) := by
  refine ⟨?_, by simp [toolResultsContent], ?_⟩
  · simp only [runIterations]
    rw [if_pos ⟨hstop, by rw [hcalls]; exact hne⟩]
    rw [hcalls, hstop]
  · intro i hi
    simp only [toolResultsContent]
    rw [List.get?_map, List.get?_eq_get hi]
    rfl

/-- C2 witness: with the two-call client the turn produces exactly two
tool-result entries, one per invocation. -/
theorem c2_tool_results_complete_witness :
    (toolResultsContent defaultEnv witnessCalls).length = witnessCalls.length :=
  (c2_tool_results_complete defaultEnv toolUseClient none 10 ToolChoiceMode.auto 5 0 0
    (initState "q") witnessCalls rfl rfl (by decide)).2.1

/-! Claim C1. -/

/-- C1: for every run of the agent loop with includeTools true and
maxIterations at least one, at most maxIterations sampling requests are
issued, and the request of round maxIterations — the last permitted round —
carries no tool catalog and no tool-choice directive, whatever tool choice
mode the caller selected. -/
theorem c1_loop_bound_and_last_round (env : MockEnv)
    (client : CreateMessageParams → CreateMessageResult) (sys : Option String)
    (mt : Int) (tcm : ToolChoiceMode) (prompt : String) (M : Int) (hM : 1 ≤ M) :
    (runAgentLoop env client sys mt tcm M prompt).requests.length ≤ M.toNat
    ∧ ∀ req,
        (runAgentLoop env client sys mt tcm M prompt).requests.get? (M.toNat - 1) = some req →
        req.tools = none ∧ req.toolChoice = none := by
  constructor
  · have hlen := runIterations_length env client sys mt tcm M M.toNat 0 (initState prompt)
    simpa [runAgentLoop, initState] using hlen
  · intro req hreq
    have hshape : reqShape tcm M (M.toNat - 1) req := by
      refine runIterations_reqShape env client sys mt tcm M M.toNat 0 (initState prompt)
        (by simp [initState]) ?_ (M.toNat - 1) req hreq
      intro i r hir
      simp [initState] at hir
    obtain ⟨ht, hc⟩ := hshape
    have hcast : ((M.toNat - 1 : Nat) : Int) = M - 1 := by omega
    rw [hcast, if_pos rfl] at ht hc
    exact ⟨ht, hc⟩

/-- C1 witness: at maxIterations one with the required tool choice mode, at
most one request is issued and the request of the last permitted round
carries no tools and no tool choice. -/
theorem c1_loop_bound_and_last_round_witness :
    (1 : Int) ≤ 1
    ∧ ((runAgentLoop defaultEnv defaultClient none 5 ToolChoiceMode.required 1 "hi").requests.length
          ≤ (1 : Int).toNat
       ∧ ∀ req,
          (runAgentLoop defaultEnv defaultClient none 5 ToolChoiceMode.required 1 "hi").requests.get?
              ((1 : Int).toNat - 1) = some req →
          req.tools = none ∧ req.toolChoice = none) :=
  ⟨by decide,
   c1_loop_bound_and_last_round defaultEnv defaultClient none 5 ToolChoiceMode.required "hi" 1
     (by decide)⟩

end Mcp
